import Mathlib

/-!
Verification of the WhatsApp conversation state machine of the KMC chatbot
repository (src/lib/whatsappService.ts, second/current revision with the
disaster-management menu, and src/app/api/whatsapp/webhook/route.ts).

The embedding models:
  * the per-user Redis session as a `Store` with the four independent keys
    `chat:<id>`, `lang:<id>`, `state:<id>`, `context:<id>` (an absent / expired
    key is `none`);
  * each Redis operation as fallible: an `Env` carries an oracle
    `fail : Nat → Bool` telling whether the n-th Redis call of the request
    throws (operations are numbered in program order);
  * the external completion service as `Env.ai`: `none` means the streamText
    call throws, `some t` means the accumulated text is `t`;
  * the outbound Twilio send as `Env.sendFail`.

Timestamps on history entries are not modelled (no control flow reads them);
`lang:` / `state:` keys only ever hold the fixed strings written by the code,
so they are modelled by the inductives `Lang` / `DState`.
-/

/-- Lowercasing as JS `toLowerCase` on the alphabets appearing in the code
(ASCII letters; Devanagari is unchanged by both). -/
def lowerStr (s : String) : String :=
  String.mk (s.data.map Char.toLower)

/-- JS `String.prototype.trim`: strip whitespace from both ends. -/
def trimStr (s : String) : String :=
  String.mk (((s.data.dropWhile Char.isWhitespace).reverse.dropWhile
    Char.isWhitespace).reverse)

/-- Does `l` start with `pat`? -/
def startsWithL : List Char → List Char → Bool
  | [], _ => true
  | _ :: _, [] => false
  | a :: as, b :: bs => a == b && startsWithL as bs

/-- Does `hay` contain `pat` as a contiguous segment? -/
def hasSub : List Char → List Char → Bool
  | [], pat => pat.isEmpty
  | c :: t, pat => startsWithL pat (c :: t) || hasSub t pat

/-- JS `String.prototype.includes`. -/
def containsStr (s sub : String) : Bool :=
  hasSub s.data sub.data

inductive Role where
  | user
  | assistant
  | system
deriving DecidableEq

structure ChatMessage where
  role : Role
  content : String
deriving DecidableEq

inductive Lang where
  | english
  | marathi
  | hindi
deriving DecidableEq

/-- The dialogue states the code ever writes to the `state:` key; an absent
key reads back as `initial`. -/
inductive DState where
  | initial
  | language_selection
  | menu_shown
  | disaster_submenu
  | free_text_mode
deriving DecidableEq

inductive Category where
  | disasterManagement
  | propertyTax
  | waterSupply
  | birthCertificate
  | deathCertificate
  | businessLicense
  | complaint
  | contact
  | freeText
deriving DecidableEq

/-- The category strings of the source (used in the `context:` write). -/
def Category.tag : Category → String
  | .disasterManagement => "disasterManagement"
  | .propertyTax => "propertyTax"
  | .waterSupply => "waterSupply"
  | .birthCertificate => "birthCertificate"
  | .deathCertificate => "deathCertificate"
  | .businessLicense => "businessLicense"
  | .complaint => "complaint"
  | .contact => "contact"
  | .freeText => "freeText"

structure MenuOption where
  number : String
  english : String
  marathi : String
  hindi : String
  category : Category
deriving DecidableEq

/-- The static menu catalog (current revision: Disaster Management is #1). -/
def menuOptions : List MenuOption :=
  [ ⟨"1", "🚨 Disaster Management", "🚨 आपत्ती व्यवस्थापन", "🚨 आपदा प्रबंधन",
      .disasterManagement⟩,
    ⟨"2", "Property Tax Payment", "मिळकत कर भरणा", "संपत्ति कर भुगतान",
      .propertyTax⟩,
    ⟨"3", "Water Bill Payment", "पाणी बिल भरणा", "पानी का बिल भुगतान",
      .waterSupply⟩,
    ⟨"4", "Birth Certificate", "जन्म प्रमाणपत्र", "जन्म प्रमाण पत्र",
      .birthCertificate⟩,
    ⟨"5", "Death Certificate", "मृत्यू प्रमाणपत्र", "मृत्यु प्रमाण पत्र",
      .deathCertificate⟩,
    ⟨"6", "Business License", "व्यवसाय परवाना", "व्यापार लाइसेंस",
      .businessLicense⟩,
    ⟨"7", "Register Complaint", "तक्रार नोंदवा", "शिकायत दर्ज करें",
      .complaint⟩,
    ⟨"8", "Contact Information", "संपर्क माहिती", "संपर्क जानकारी",
      .contact⟩,
    ⟨"9", "Other / Type your question", "इतर / आपला प्रश्न टाइप करा",
      "अन्य / अपना प्रश्न टाइप करें", .freeText⟩ ]

inductive DisasterSub where
  | waterLevel
  | shelter
  | emergency
  | back
deriving DecidableEq

/-- The four per-user Redis keys; `none` = key absent or expired. -/
structure Store where
  chat : Option (List ChatMessage)
  lang : Option Lang
  dstate : Option DState
  context : Option String
deriving DecidableEq

/-- The request's external world: which Redis call (numbered in program
order) throws, what the completion service yields (`none` = it throws),
and whether the outbound Twilio send throws. -/
structure Env where
  fail : Nat → Bool
  ai : Option String
  sendFail : Bool

structure HandleResult where
  reply : String
  store : Store
  usedAI : Bool
deriving DecidableEq

/-- The three matching rules of `handleLanguageSelection` (English branch),
applied to the trimmed, lowercased message. -/
def englishChoiceRule (choice : String) : Bool :=
  choice == "1" || containsStr choice "english"

def marathiChoiceRule (choice : String) : Bool :=
  choice == "2" || containsStr choice "मराठी" || containsStr choice "marathi"

def hindiChoiceRule (choice : String) : Bool :=
  choice == "3" || containsStr choice "हिंदी" || containsStr choice "hindi"

def handleLanguageSelection (message : String) : Option Lang :=
  let choice := lowerStr (trimStr message)
  if englishChoiceRule choice then some .english
  else if marathiChoiceRule choice then some .marathi
  else if hindiChoiceRule choice then some .hindi
  else none

/-- How many of the three language matching rules apply to an input text. -/
def langRuleCount (message : String) : Nat :=
  let choice := lowerStr (trimStr message)
  (if englishChoiceRule choice then 1 else 0)
    + (if marathiChoiceRule choice then 1 else 0)
    + (if hindiChoiceRule choice then 1 else 0)

/-- Modelled from the spec: the same three matching rules checked in the
opposite order, to state the order-independence the spec asserts for
`classifyLanguageChoice`. -/
def classifyLanguageChoiceRev (message : String) : Option Lang :=
  let choice := lowerStr (trimStr message)
  if hindiChoiceRule choice then some .hindi
  else if marathiChoiceRule choice then some .marathi
  else if englishChoiceRule choice then some .english
  else none

def parseMenuSelection (message : String) : Option MenuOption :=
  let trimmed := trimStr message
  match menuOptions.find? (fun opt => opt.number == trimmed) with
  | some opt => some opt
  | none =>
      let lowerMessage := lowerStr message
      menuOptions.find? (fun opt =>
        containsStr lowerMessage (lowerStr opt.english)
          || containsStr lowerMessage (lowerStr opt.marathi)
          || containsStr lowerMessage (lowerStr opt.hindi))

def parseDisasterSubMenu (message : String) : Option DisasterSub :=
  let trimmed := trimStr message
  if trimmed == "1" || containsStr (lowerStr trimmed) "water"
      || containsStr trimmed "पाणी" || containsStr trimmed "पानी" then
    some .waterLevel
  else if trimmed == "2" || containsStr (lowerStr trimmed) "shelter"
      || containsStr trimmed "निवारा" || containsStr trimmed "आश्रय" then
    some .shelter
  else if trimmed == "3" || containsStr (lowerStr trimmed) "emergency"
      || containsStr trimmed "आपत्कालीन" || containsStr trimmed "आपातकालीन" then
    some .emergency
  else if trimmed == "4" || containsStr (lowerStr trimmed) "back"
      || containsStr trimmed "परत" || containsStr trimmed "वापस" then
    some .back
  else none

def menuTriggers : List String :=
  ["menu", "help", "options", "services", "मेनू", "मदत", "सेवा", "मेन्यू", "सहायता"]

def shouldShowMenu (body : String) : Bool :=
  menuTriggers.any (fun trigger => containsStr (lowerStr body) trigger)

def getLanguageSelectionMessage : String :=
  "🏛️ *Welcome to Kolhapur Municipal Corporation*\nकोल्हापूर महानगरपालिकेत आपले स्वागत आहे\n\nPlease choose your language / कृपया आपली भाषा निवडा:\n\n*1* - English\n*2* - मराठी (Marathi)  \n*3* - हिंदी (Hindi)\n\nReply with the number of your choice."

/-- The option label rendered for a language (the ternary chain of
`getMainMenuMessage`). -/
def menuOptionLabel (language : Lang) (opt : MenuOption) : String :=
  match language with
  | .marathi => opt.marathi
  | .hindi => opt.hindi
  | .english => opt.english

def getMainMenuMessage (language : Lang) : String :=
  let header :=
    match language with
    | .english => "🏛️ *KMC Services Menu*\nWhat can I help you with today?"
    | .marathi => "🏛️ *KMC सेवा मेनू*\nआज मी तुमची काय मदत करू शकतो?"
    | .hindi => "🏛️ *KMC सेवा मेनू*\nआज मैं आपकी क्या मदत कर सकता हूं?"
  let footer :=
    match language with
    | .english => "\n💬 *Choose a number (1-9) or type your question directly*"
    | .marathi => "\n💬 *संख्या निवडा (1-9) किंवा आपला प्रश्न थेट टाइप करा*"
    | .hindi => "\n💬 *संख्या चुनें (1-9) या अपना प्रश्न सीधे टाइप करें*"
  let menu := menuOptions.foldl
    (fun m opt => m ++ "*" ++ opt.number ++ "* - " ++ menuOptionLabel language opt ++ "\n")
    (header ++ "\n\n")
  menu ++ footer

def getDisasterSubMenu (language : Lang) : String :=
  let header :=
    match language with
    | .english => "🚨 *Disaster Management Services*\nSelect an option:"
    | .marathi => "🚨 *आपत्ती व्यवस्थापन सेवा*\nपर्याय निवडा:"
    | .hindi => "🚨 *आपदा प्रबंधन सेवाएं*\nविकल्प चुनें:"
  let options :=
    match language with
    | .english =>
        ["*1* - 🌊 Water Level Information",
         "*2* - 🏠 Temporary Shelter Information",
         "*3* - 📞 Emergency Contacts",
         "*4* - ⬅️ Back to Main Menu"]
    | .marathi =>
        ["*1* - 🌊 पाणी पातळी माहिती",
         "*2* - 🏠 तात्पुरते निवारा माहिती",
         "*3* - 📞 आपत्कालीन संपर्क",
         "*4* - ⬅️ मुख्य मेनूवर परत या"]
    | .hindi =>
        ["*1* - 🌊 पानी स्तर की जानकारी",
         "*2* - 🏠 अस्थायी आश्रय जानकारी",
         "*3* - 📞 आपातकालीन संपर्क",
         "*4* - ⬅️ मुख्य मेनू पर वापस"]
  header ++ "\n\n" ++ String.intercalate "\n" options

def getMenuReminder (language : Lang) : String :=
  let reminder :=
    match language with
    | .english => "💬 Type 'menu' to see all options again or contact us at 0231-2540291"
    | .marathi => "💬 सर्व पर्याय पुन्हा पाहण्यासाठी 'menu' टाइप करा किंवा 0231-2540291 वर संपर्क करा"
    | .hindi => "💬 सभी विकल्प फिर से देखने के लिए 'menu' टाइप करें या 0231-2540291 पर संपर्क करें"
  "---\n" ++ reminder

def getDisasterMenuReminder (language : Lang) : String :=
  let reminder :=
    match language with
    | .english => "💬 Type 1-4 for disaster services or 'menu' for main menu"
    | .marathi => "💬 आपत्ती सेवांसाठी 1-4 टाइप करा किंवा मुख्य मेनूसाठी 'menu'"
    | .hindi => "💬 आपदा सेवाओं के लिए 1-4 टाइप करें या मुख्य मेनू के लिए 'menu'"
  "---\n" ++ reminder

def getPropertyTaxInfo (language : Lang) : String :=
  let response :=
    match language with
    | .english => "📊 *Property Tax Payment Process*\n\n*Step-by-step guide:*\n1️⃣ Visit: https://web.kolhapurcorporation.gov.in/citizen\n2️⃣ Click 'नवीन नागरिक नोंदणी' for new registration\n3️⃣ Login with your credentials\n4️⃣ Navigate to Service #4: 'मिळकतकर थकबाकी पहा'\n5️⃣ Enter property details\n6️⃣ Review amount and pay online\n\n*Documents needed:*\n- Address proof of property\n- Previous tax bill (if available)\n- Property ownership documents\n\n*Contact:* 0231-2540291\n\nWould you like help with registration or have other questions?"
    | .marathi => "📊 *मिळकत कर भरण्याची प्रक्रिया*\n\n*चरणबद्ध मार्गदर्शन:*\n1️⃣ भेट द्या: https://web.kolhapurcorporation.gov.in/citizen\n2️⃣ नवीन नोंदणीसाठी 'नवीन नागरिक नोंदणी' वर क्लिक करा\n3️⃣ आपल्या क्रेडेंशियलने लॉगिन करा\n4️⃣ सेवा #4 वर जा: 'मिळकतकर थकबाकी पहा'\n5️⃣ मालमत्तेचे तपशील भरा\n6️⃣ रकमेचे पुनरावलोकन करा आणि ऑनलाइन पेमेंट करा\n\n*आवश्यक कागदपत्रे:*\n- मालमत्तेचा पत्ता पुरावा\n- मागील कर बिल (उपलब्ध असल्यास)\n- मालमत्ता मालकीचे कागदपत्रे\n\n*संपर्क:* 0231-2540291\n\nनोंदणीसाठी मदत हवी आहे किंवा इतर प्रश्न आहेत?"
    | .hindi => "📊 *संपत्ति कर भुगतान प्रक्रिया*\n\n*चरणबद्ध गाइड:*\n1️⃣ विजिट करें: https://web.kolhapurcorporation.gov.in/citizen\n2️⃣ नए पंजीकरण के लिए 'नवीन नागरिक नोंदणी' पर क्लिक करें\n3️⃣ अपने क्रेडेंशियल्स से लॉगिन करें\n4️⃣ सेवा #4 पर जाएं: 'मिळकतकर थकबाकी पहा'\n5️⃣ संपत्ति विवरण भरें\n6️⃣ राशि की समीक्षा करें और ऑनलाइन भुगतान करें\n\n*आवश्यक दस्तावेज:*\n- संपत्ति का पता प्रमाण\n- पिछला कर बिल (यदि उपलब्ध हो)\n- संपत्ति स्वामित्व दस्तावेज\n\n*संपर्क:* 0231-2540291\n\nक्या पंजीकरण में मदत चाहिए या अन्य प्रश्न हैं?"
  response ++ "\n\n" ++ getMenuReminder language

def getWaterSupplyInfo (language : Lang) : String :=
  let response :=
    match language with
    | .english => "💧 *Water Supply Services*\n\n*Bill Payment Process:*\n1️⃣ Visit: https://web.kolhapurcorporation.gov.in/citizen\n2️⃣ Register/Login to citizen portal\n3️⃣ Navigate to Service #5: 'पाणीपट्टी थकबाकी पहा'\n4️⃣ Enter water connection number\n5️⃣ View bill amount and pay online\n\n*New Connection:*\n- Visit: mjp.maharashtra.gov.in\n- Apply for new tap connection\n- Application fee: ₹100\n\n*Important:* 1% monthly penalty for delayed payments\n\n*Contact:* Water Engineer - Harshajit Dilipsinh Ghatage\n*Phone:* 0231-2540291"
    | .marathi => "💧 *पाणी पुरवठा सेवा*\n\n*बिल भरण्याची प्रक्रिया:*\n1️⃣ भेट द्या: https://web.kolhapurcorporation.gov.in/citizen\n2️⃣ नागरिक पोर्टलवर नोंदणी/लॉगिन करा\n3️⃣ सेवा #5 वर जा: 'पाणीपट्टी थकबाकी पहा'\n4️⃣ पाणी कनेक्शन नंबर टाका\n5️⃣ बिलची रक्कम पहा आणि ऑनलाइन पेमेंट करा\n\n*नवीन कनेक्शन:*\n- भेट द्या: mjp.maharashtra.gov.in\n- नवीन टॅप कनेक्शनसाठी अर्ज करा\n- अर्ज फी: ₹100\n\n*महत्वाचे:* उशीरा पेमेंटसाठी 1% मासिक दंड\n\n*संपर्क:* पाणी अभियंता - हर्षजित दिलीपसिंह घाटगे\n*फोन:* 0231-2540291"
    | .hindi => "💧 *जल आपूर्ति सेवाएं*\n\n*बिल भुगतान प्रक्रिया:*\n1️⃣ विजिट करें: https://web.kolhapurcorporation.gov.in/citizen\n2️⃣ नागरिक पोर्टल पर पंजीकरण/लॉगिन करें\n3️⃣ सेवा #5 पर जाएं: 'पाणीपट्टी थकबाकी पहा'\n4️⃣ पानी कनेक्शन नंबर डालें\n5️⃣ बिल राशि देखें और ऑनलाइन भुगतान करें\n\n*नया कनेक्शन:*\n- विजिट करें: mjp.maharashtra.gov.in\n- नए टैप कनेक्शन के लिए आवेदन करें\n- आवेदन शुल्क: ₹100\n\n*महत्वपूर्ण:* देर से भुगतान के लिए 1% मासिक जुर्माना\n\n*संपर्क:* जल अभियंता - हर्षजित दिलीपसिंह घाटगे\n*फोन:* 0231-2540291"
  response ++ "\n\n" ++ getMenuReminder language

def getCertificateInfo (type : Category) (language : Lang) : String :=
  let isBirth := type = Category.birthCertificate
  let response :=
    match language with
    | .english =>
        "📋 *" ++ (if isBirth then "Birth" else "Death") ++ " Certificate Application*\n\n*Online Process:*\n1️⃣ Visit: https://web.kolhapurcorporation.gov.in/citizen\n2️⃣ Register/Login to citizen portal\n3️⃣ Navigate to Service #7: 'जन्म व मृत्यू नोंदणी प्रमाणपत्र'\n4️⃣ Select '" ++ (if isBirth then "Birth" else "Death") ++ " Certificate'\n5️⃣ Fill required details\n6️⃣ Upload documents and pay fees\n\n*Required Documents:*\n" ++ (if isBirth then "• Hospital discharge papers\n• Parents' Aadhar cards\n• Parents' marriage certificate" else "• Death certificate from hospital\n• Deceased person's Aadhar\n• Family member's ID proof") ++ "\n\n*Contact:* 0231-2540291"
    | .marathi =>
        "📋 *" ++ (if isBirth then "जन्म" else "मृत्यू") ++ " प्रमाणपत्र अर्ज*\n\n*ऑनलाइन प्रक्रिया:*\n1️⃣ भेट द्या: https://web.kolhapurcorporation.gov.in/citizen\n2️⃣ नागरिक पोर्टलवर नोंदणी/लॉगिन करा\n3️⃣ सेवा #7 वर जा: 'जन्म व मृत्यू नोंदणी प्रमाणपत्र'\n4️⃣ '" ++ (if isBirth then "जन्म" else "मृत्यू") ++ " प्रमाणपत्र' निवडा\n5️⃣ आवश्यक तपशील भरा\n6️⃣ कागदपत्रे अपलोड करा आणि फी भरा\n\n*आवश्यक कागदपत्रे:*\n" ++ (if isBirth then "• हॉस्पिटल डिस्चार्ज पेपर्स\n• पालकांचे आधार कार्ड\n• पालकांचे लग्न प्रमाणपत्र" else "• हॉस्पिटलकडून मृत्यू प्रमाणपत्र\n• मृत व्यक्तीचे आधार\n• कुटुंबातील सदस्याचा आयडी पुरावा") ++ "\n\n*संपर्क:* 0231-2540291"
    | .hindi =>
        "📋 *" ++ (if isBirth then "जन्म" else "मृत्यु") ++ " प्रमाण पत्र आवेदन*\n\n*ऑनलाइन प्रक्रिया:*\n1️⃣ विजिट करें: https://web.kolhapurcorporation.gov.in/citizen\n2️⃣ नागरिक पोर्टल पर पंजीकरण/लॉगिन करें\n3️⃣ सेवा #7 पर जाएं: 'जन्म व मृत्यू नोंदणी प्रमाणपत्र'\n4️⃣ '" ++ (if isBirth then "जन्म" else "मृत्यु") ++ " प्रमाण पत्र' चुनें\n5️⃣ आवश्यक विवरण भरें\n6️⃣ दस्तावेज अपलोड करें और शुल्क भरें\n\n*आवश्यक दस्तावेज:*\n" ++ (if isBirth then "• अस्पताल डिस्चार्ज पेपर्स\n• माता-पिता के आधार कार्ड\n• माता-पिता का विवाह प्रमाण पत्र" else "• अस्पताल से मृत्यु प्रमाण पत्र\n• मृतक व्यक्ति का आधार\n• परिवार के सदस्य का आईडी प्रूफ") ++ "\n\n*संपर्क:* 0231-2540291"
  response ++ "\n\n" ++ getMenuReminder language

def getBusinessLicenseInfo (language : Lang) : String :=
  let response :=
    match language with
    | .english => "📄 *Business License Application*\n\n*Online Process:*\n1️⃣ Visit: https://web.kolhapurcorporation.gov.in/citizen\n2️⃣ Register/Login to citizen portal\n3️⃣ For new license: Service #11: 'बांधकाम परवानगी'\n4️⃣ For renewals: Service #6: 'परवाना थकबाकी पहा'\n5️⃣ Fill business details\n6️⃣ Upload documents and pay fees\n\n*Required Documents:*\n- Business address proof\n- Owner's ID and address proof\n- Shop establishment documents\n- NOC from fire department (if required)\n\n*Contact:* 0231-2540291"
    | .marathi => "📄 *व्यवसाय परवाना अर्ज*\n\n*ऑनलाइन प्रक्रिया:*\n1️⃣ भेट द्या: https://web.kolhapurcorporation.gov.in/citizen\n2️⃣ नागरिक पोर्टलवर नोंदणी/लॉगिन करा\n3️⃣ नवीन परवान्यासाठी: सेवा #11: 'बांधकाम परवानगी'\n4️⃣ नूतनीकरणासाठी: सेवा #6: 'परवाना थकबाकी पहा'\n5️⃣ व्यवसायाचे तपशील भरा\n6️⃣ कागदपत्रे अपलोड करा आणि फी भरा\n\n*आवश्यक कागदपत्रे:*\n- व्यवसायाचा पत्ता पुरावा\n- मालकाचा आयडी आणि पत्ता पुरावा\n- दुकान स्थापना कागदपत्रे\n- अग्निशमन विभागाकडून NOC (आवश्यक असल्यास)\n\n*संपर्क:* 0231-2540291"
    | .hindi => "📄 *व्यापार लाइसेंस आवेदन*\n\n*ऑनलाइन प्रक्रिया:*\n1️⃣ विजिट करें: https://web.kolhapurcorporation.gov.in/citizen\n2️⃣ नागरिक पोर्टल पर पंजीकरण/लॉगिन करें\n3️⃣ नए लाइसेंस के लिए: सेवा #11: 'बांधकाम परवानगी'\n4️⃣ नवीनीकरण के लिए: सेवा #6: 'परवाना थकबाकी पहा'\n5️⃣ व्यापार विवरण भरें\n6️⃣ दस्तावेज अपलोड करें और शुल्क भरें\n\n*आवश्यक दस्तावेज:*\n- व्यापार पता प्रमाण\n- मालिक का आईडी और पता प्रमाण\n- दुकान स्थापना दस्तावेज\n- अग्निशमन विभाग से NOC (यदि आवश्यक हो)\n\n*संपर्क:* 0231-2540291"
  response ++ "\n\n" ++ getMenuReminder language

def getComplaintInfo (language : Lang) : String :=
  let response :=
    match language with
    | .english => "📝 *Register Complaint*\n\n*Online Process:*\n1️⃣ Visit: https://web.kolhapurcorporation.gov.in/citizen\n2️⃣ Register/Login to citizen portal\n3️⃣ Navigate to Service #8: 'तक्रार स्थिती'\n4️⃣ Register new complaint\n5️⃣ Fill complaint details\n6️⃣ Submit and track status online\n\n*Types of Complaints:*\n- Road maintenance issues\n- Water supply problems\n- Garbage collection\n- Street light issues\n- Drainage problems\n\n*Emergency Contact:* 0231-2540291"
    | .marathi => "📝 *तक्रार नोंदवा*\n\n*ऑनलाइन प्रक्रिया:*\n1️⃣ भेट द्या: https://web.kolhapurcorporation.gov.in/citizen\n2️⃣ नागरिक पोर्टलवर नोंदणी/लॉगिन करा\n3️⃣ सेवा #8 वर जा: 'तक्रार स्थिती'\n4️⃣ नवीन तक्रार नोंदवा\n5️⃣ तक्रारीचे तपशील भरा\n6️⃣ सबमिट करा आणि ऑनलाइन स्थिती ट्रॅक करा\n\n*तक्रारीचे प्रकार:*\n- रस्ता दुरुस्तीच्या समस्या\n- पाणी पुरवठ्याच्या समस्या\n- कचरा गोळा करणे\n- रस्ता दिव्याच्या समस्या\n- गटारीच्या समस्या\n\n*आपत्कालीन संपर्क:* 0231-2540291"
    | .hindi => "📝 *शिकायत दर्ज करें*\n\n*ऑनलाइन प्रक्रिया:*\n1️⃣ विजिट करें: https://web.kolhapurcorporation.gov.in/citizen\n2️⃣ नागरिक पोर्टल पर पंजीकरण/लॉगिन करें\n3️⃣ सेवा #8 पर जाएं: 'तक्रार स्थिती'\n4️⃣ नई शिकायत दर्ज करें\n5️⃣ शिकायत का विवरण भरें\n6️⃣ सबमिट करें और ऑनलाइन स्थिति ट्रैक करें\n\n*शिकायत के प्रकार:*\n- सड़क रखरखाव की समस्याएं\n- पानी की आपूर्ति की समस्याएं\n- कचरा संग्रह\n- स्ट्रीट लाइट की समस्याएं\n- जल निकासी की समस्याएं\n\n*आपातकालीन संपर्क:* 0231-2540291"
  response ++ "\n\n" ++ getMenuReminder language

def getContactInfo (language : Lang) : String :=
  let response :=
    match language with
    | .english => "📞 *Kolhapur Municipal Corporation Contact*\n\n*Main Office:*\nPhone: 0231-2540291\nEmail: commissionerkmc@rediffmail.com\n\n*Commissioner:* K Manjulekshmi\n\n*Office Address:*\nKolhapur Municipal Corporation\nKolhapur, Maharashtra\n\n*Portal:* https://web.kolhapurcorporation.gov.in/\n\n*Office Hours:*\nMonday to Saturday: 10:00 AM - 5:00 PM\n\n*Emergency Services:* Available 24/7"
    | .marathi => "📞 *कोल्हापूर महानगरपालिका संपर्क*\n\n*मुख्य कार्यालय:*\nफोन: 0231-2540291\nईमेल: commissionerkmc@rediffmail.com\n\n*आयुक्त:* के मंजुलेक्ष्मी\n\n*कार्यालयाचा पत्ता:*\nकोल्हापूर महानगरपालिका\nकोल्हापूर, महाराष्ट्र\n\n*पोर्टल:* https://web.kolhapurcorporation.gov.in/\n\n*कार्यालयीन वेळा:*\nसोमवार ते शनिवार: सकाळी 10:00 - संध्याकाळी 5:00\n\n*आपत्कालीन सेवा:* 24/7 उपलब्ध"
    | .hindi => "📞 *कोल्हापुर नगर निगम संपर्क*\n\n*मुख्य कार्यालय:*\nफोन: 0231-2540291\nईमेल: commissionerkmc@rediffmail.com\n\n*आयुक्त:* के मंजुलेक्ष्मी\n\n*कार्यालय का पता:*\nकोल्हापुर नगर निगम\nकोल्हापुर, महाराष्ट्र\n\n*पोर्टल:* https://web.kolhapurcorporation.gov.in/\n\n*कार्यालय समय:*\nसोमवार से शनिवार: सुबह 10:00 - शाम 5:00\n\n*आपातकालीन सेवा:* 24/7 उपलब्ध"
  response ++ "\n\n" ++ getMenuReminder language

def getWaterLevelInfo (language : Lang) : String :=
  let response :=
    match language with
    | .english => "🌊 *Current Water Level Information*\n\n*Date:* 25/06/2025 at 5:00 PM\n*Rajaram Dam:* 346\" (540.70m)\n*Discharge:* 35417 cusecs\n*River Levels:* 39'00\" to 43'00\"\n*Location:* Panhala-63\n\n⚠️ *Alert Status:* Monitor water levels closely\n\n*Safety Guidelines:*\n• Avoid areas near riverbanks\n• Follow evacuation notices if issued\n• Keep emergency kit ready\n• Stay updated through official channels\n\n*Emergency Helpline:* 0231-2540291"
    | .marathi => "🌊 *सध्याची पाणी पातळी माहिती*\n\n*दिनांक:* 25/06/2025 संध्याकाळी 5:00 वा.\n*राजाराम धरण:* 346\" (540.70m)\n*विसर्ग:* 35417 cusecs\n*नदी पातळी:* 39'00\" ते 43'00\"\n*स्थान:* पन्हाळा-63\n\n⚠️ *सतर्कता स्थिती:* पाणी पातळीवर बारीक निरीक्षण ठेवा\n\n*सुरक्षा मार्गदर्शन:*\n• नदीकाठी भागांपासून दूर राहा\n• स्थलांतर सूचना मिळाल्यास त्यांचे पालन करा\n• आपत्कालीन किट तयार ठेवा\n• अधिकृत माध्यमांद्वारे अपडेट रहा\n\n*आपत्कालीन हेल्पलाइन:* 0231-2540291"
    | .hindi => "🌊 *वर्तमान जल स्तर की जानकारी*\n\n*दिनांक:* 25/06/2025 शाम 5:00 बजे\n*राजाराम बांध:* 346\" (540.70m)\n*निकासी:* 35417 cusecs\n*नदी स्तर:* 39'00\" से 43'00\"\n*स्थान:* पन्हाला-63\n\n⚠️ *अलर्ट स्थिति:* जल स्तर पर निरंतर निगरानी रखें\n\n*सुरक्षा दिशानिर्देश:*\n• नदी तटीय क्षेत्रों से दूर रहें\n• निकासी की सूचना मिलने पर उसका पालन करें\n• आपातकालीन किट तैयार रखें\n• आधिकारिक चैनलों के माध्यम से अपडेट रहें\n\n*आपातकालीन हेल्पलाइन:* 0231-2540291"
  response ++ "\n\n" ++ getDisasterMenuReminder language

def getShelterInfo (language : Lang) : String :=
  let response :=
    match language with
    | .english => "🏠 *Temporary Shelter Information*\n\n*Available Shelters:*\n\n🏫 *Shelter 1: Saraswati Vidyalaya*\n• Total Capacity: 150 people\n• Current Occupancy: 45 people\n• Available Vacancy: 105 people\n• Status: 🟢 ACTIVE/OPEN\n• Contact: 9876543210\n• Address: Station Road, Kolhapur\n\n🏫 *Shelter 2: Jan Vidyalaya*\n• Total Capacity: 200 people\n• Current Occupancy: 180 people\n• Available Vacancy: 20 people\n• Status: 🟡 NEARLY FULL\n• Contact: 9876543211\n• Address: Near Bus Stand, Kolhapur\n\n🏫 *Shelter 3: Municipal School*\n• Total Capacity: 120 people\n• Current Occupancy: 120 people\n• Available Vacancy: 0 people\n• Status: 🔴 FULL\n• Contact: 9876543212\n• Address: City Center, Kolhapur\n\n*Emergency Shelter Helpline:* 0231-2540291\n\n*What to bring:*\n• Valid ID proof\n• Basic medicines\n• Drinking water\n• Light snacks"
    | .marathi => "🏠 *तात्पुरते निवारा माहिती*\n\n*उपलब्ध निवारे:*\n\n🏫 *निवारा 1: सरस्वती विद्यालय*\n• एकूण क्षमता: 150 लोक\n• सध्याची भरती: 45 लोक\n• उपलब्ध जागा: 105 लोक\n• स्थिती: 🟢 सक्रिय/उघडे\n• संपर्क: 9876543210\n• पत्ता: स्टेशन रोड, कोल्हापूर\n\n🏫 *निवारा 2: जन विद्यालय*\n• एकूण क्षमता: 200 लोक\n• सध्याची भरती: 180 लोक\n• उपलब्ध जागा: 20 लोक\n• स्थिती: 🟡 जवळजवळ भरलेले\n• संपर्क: 9876543211\n• पत्ता: बस स्टॅंड जवळ, कोल्हापूर\n\n🏫 *निवारा 3: नगरपालिका शाळा*\n• एकूण क्षमता: 120 लोक\n• सध्याची भरती: 120 लोक\n• उपलब्ध जागा: 0 लोक\n• स्थिती: 🔴 भरलेले\n• संपर्क: 9876543212\n• पत्ता: शहर मध्य, कोल्हापूर\n\n*आपत्कालीन निवारा हेल्पलाइन:* 0231-2540291\n\n*काय आणावे:*\n• वैध ओळखपत्र\n• मूलभूत औषधे\n• पिण्याचे पाणी\n• हलके नाश्ता"
    | .hindi => "🏠 *अस्थायी आश्रय जानकारी*\n\n*उपलब्ध आश्रय:*\n\n🏫 *आश्रय 1: सरस्वती विद्यालय*\n• कुल क्षमता: 150 लोग\n• वर्तमान भरावट: 45 लोग\n• उपलब्ध स्थान: 105 लोग\n• स्थिति: 🟢 सक्रिय/खुला\n• संपर्क: 9876543210\n• पता: स्टेशन रोड, कोल्हापुर\n\n🏫 *आश्रय 2: जन विद्यालय*\n• कुल क्षमता: 200 लोग\n• वर्तमान भरावट: 180 लोग\n• उपलब्ध स्थान: 20 लोग\n• स्थिति: 🟡 लगभग भरा हुआ\n• संपर्क: 9876543211\n• पता: बस स्टैंड के पास, कोल्हापुर\n\n🏫 *आश्रय 3: नगरपालिका स्कूल*\n• कुल क्षमता: 120 लोग\n• वर्तमान भरावट: 120 लोग\n• उपलब्ध स्थान: 0 लोग\n• स्थिति: 🔴 भरा हुआ\n• संपर्क: 9876543212\n• पता: शहर केंद्र, कोल्हापुर\n\n*आपातकालीन आश्रय हेल्पलाइन:* 0231-2540291\n\n*क्या लाना है:*\n• वैध पहचान पत्र\n• बुनियादी दवाएं\n• पीने का पानी\n• हल्का नाश्ता"
  response ++ "\n\n" ++ getDisasterMenuReminder language

def getEmergencyContacts (language : Lang) : String :=
  let response :=
    match language with
    | .english => "📞 *Emergency Contacts - Disaster Management*\n\n🚨 *KMC Emergency Control Room*\nPhone: 0231-2540291\nAvailable: 24/7\n\n🚒 *Fire Department*\nPhone: 101\nEmergency: 0231-2544444\n\n🚑 *Medical Emergency*\nPhone: 108\nAmbulance: 0231-2566666\n\n👮 *Police Control Room*\nPhone: 100\nLocal: 0231-2577777\n\n🌊 *Flood Control Room*\nPhone: 0231-2540291 (Ext: 123)\n\n⚡ *Electricity Emergency*\nMSEB: 1912\nLocal: 0231-2588888\n\n*Disaster Management Officer:*\nMr. Rajesh Patil\nMobile: 9876543200\nEmail: disaster@kmckolhapur.gov.in\n\n*Important:*\nSave these numbers in your phone for quick access during emergencies."
    | .marathi => "📞 *आपत्कालीन संपर्क - आपत्ती व्यवस्थापन*\n\n🚨 *KMC आपत्कालीन नियंत्रण कक्ष*\nफोन: 0231-2540291\nउपलब्ध: 24/7\n\n🚒 *अग्निशमन विभाग*\nफोन: 101\nआपत्कालीन: 0231-2544444\n\n🚑 *वैद्यकीय आपत्काल*\nफोन: 108\nरुग्णवाहिका: 0231-2566666\n\n👮 *पोलीस नियंत्रण कक्ष*\nफोन: 100\nस्थानिक: 0231-2577777\n\n🌊 *पूर नियंत्रण कक्ष*\nफोन: 0231-2540291 (Ext: 123)\n\n⚡ *वीज आपत्काल*\nMSEB: 1912\nस्थानिक: 0231-2588888\n\n*आपत्ती व्यवस्थापन अधिकारी:*\nश्री राजेश पाटील\nमोबाइल: 9876543200\nईमेल: disaster@kmckolhapur.gov.in\n\n*महत्वाचे:*\nआपत्कालीन परिस्थितीत त्वरित संपर्कासाठी हे नंबर आपल्या फोनमध्ये सेव्ह करा."
    | .hindi => "📞 *आपातकालीन संपर्क - आपदा प्रबंधन*\n\n🚨 *KMC आपातकालीन नियंत्रण कक्ष*\nफोन: 0231-2540291\nउपलब्ध: 24/7\n\n🚒 *अग्निशमन विभाग*\nफोन: 101\nआपातकाल: 0231-2544444\n\n🚑 *चिकित्सा आपातकाल*\nफोन: 108\nएम्बुलेंस: 0231-2566666\n\n👮 *पुलिस नियंत्रण कक्ष*\nफोन: 100\nस्थानीय: 0231-2577777\n\n🌊 *बाढ़ नियंत्रण कक्ष*\nफोन: 0231-2540291 (Ext: 123)\n\n⚡ *बिजली आपातकाल*\nMSEB: 1912\nस्थानीय: 0231-2588888\n\n*आपदा प्रबंधन अधिकारी:*\nश्री राजेश पाटिल\nमोबाइल: 9876543200\nईमेल: disaster@kmckolhapur.gov.in\n\n*महत्वपूर्ण:*\nआपातकाल के दौरान त्वरित संपर्क के लिए इन नंबरों को अपने फोन में सेव करें।"
  response ++ "\n\n" ++ getDisasterMenuReminder language

/-- The free-text escape prompt of `handleMenuSelection`. -/
def freeTextPrompt (language : Lang) : String :=
  match language with
  | .english => "Please type your question about KMC services, and I'll help you:"
  | .marathi => "कृपया KMC सेवांबद्दल आपला प्रश्न टाइप करा, मी तुमची मदत करेन:"
  | .hindi => "कृपया KMC सेवाओं के बारे में अपना प्रश्न टाइप करें, मैं आपकी सहायता करूंगा:"

/-- The reply `handleMenuSelection` produces for a selected category. -/
def menuSelectionResponse (c : Category) (language : Lang) : String :=
  match c with
  | .disasterManagement => getDisasterSubMenu language
  | .propertyTax => getPropertyTaxInfo language
  | .waterSupply => getWaterSupplyInfo language
  | .birthCertificate => getCertificateInfo .birthCertificate language
  | .deathCertificate => getCertificateInfo .deathCertificate language
  | .businessLicense => getBusinessLicenseInfo language
  | .complaint => getComplaintInfo language
  | .contact => getContactInfo language
  | .freeText => freeTextPrompt language

/-- The fallback returned when `streamText` yields no text. -/
def kmcEmptyResponseApology : String :=
  "I apologize, but I couldn't generate a proper response. Please try asking about KMC services or type 'menu' to see options."

/-- The fallback returned when the completion call throws
(caught inside `processWithKMCAI`). -/
def kmcErrorApology : String :=
  "I'm having trouble processing your request. Please type 'menu' to see service options or contact KMC at 0231-2540291."

/-- The apology of `handleIncomingMessage`'s top-level catch. -/
def whatsappErrorApology : String :=
  "Sorry, I'm having trouble right now. Type 'menu' to see options or contact KMC at 0231-2540291."

/-- The `/clear` confirmation of `handleCommand`. -/
def clearConfirmation : String :=
  "✅ Conversation history cleared! You can start fresh."

/-- `processWithKMCAI`: the completion result is abstracted by `env.ai`; the
function never throws (it catches the completion failure itself). -/
def processWithKMCAI (env : Env) (_userMessage : String)
    (_history : List ChatMessage) (_language : Lang) : String :=
  match env.ai with
  | none => kmcErrorApology
  | some t => if t = "" then kmcEmptyResponseApology else t


/-- `updateConversationHistory`: reads `chat:` (Redis op `n`), appends the
user turn then the assistant turn, keeps the last 20 entries and writes
`chat:` back (op `n+1`). Its own try/catch swallows both failures, so the
store is simply left unchanged when either operation throws. -/
def updateConversationHistory (env : Env) (n : Nat) (store : Store)
    (userMessage botResponse : String) : Store :=
  if env.fail n then store
  else
    let history := store.chat.getD []
    let newHistory := history ++
      [⟨Role.user, userMessage⟩, ⟨Role.assistant, botResponse⟩]
    let recentHistory := newHistory.drop (newHistory.length - 20)
    if env.fail (n + 1) then store
    else { store with chat := some recentHistory }

/-- `handleMenuSelection`: writes `context:` (op `n`), then dispatches on the
category; the disaster and free-text branches also write `state:` (op `n+1`).
A throw propagates (`.error` carries the store at that moment). -/
def handleMenuSelection (env : Env) (n : Nat) (store : Store)
    (option : MenuOption) (language : Lang) :
    Except Store (String × Store × Nat) :=
  if env.fail n then .error store
  else
    let s1 := { store with context := some ("service_" ++ option.category.tag) }
    match option.category with
    | .disasterManagement =>
        if env.fail (n + 1) then .error s1
        else .ok (menuSelectionResponse .disasterManagement language,
          { s1 with dstate := some .disaster_submenu }, n + 2)
    | .freeText =>
        if env.fail (n + 1) then .error s1
        else .ok (menuSelectionResponse .freeText language,
          { s1 with dstate := some .free_text_mode }, n + 2)
    | c => .ok (menuSelectionResponse c language, s1, n + 1)

/-- `handleDisasterSubMenu`: only the back option touches Redis
(writes `state:` = menu_shown, op `n`). -/
def handleDisasterSubMenu (env : Env) (n : Nat) (store : Store)
    (option : DisasterSub) (language : Lang) :
    Except Store (String × Store × Nat) :=
  match option with
  | .waterLevel => .ok (getWaterLevelInfo language, store, n)
  | .shelter => .ok (getShelterInfo language, store, n)
  | .emergency => .ok (getEmergencyContacts language, store, n)
  | .back =>
      if env.fail n then .error store
      else .ok (getMainMenuMessage language,
        { store with dstate := some .menu_shown }, n + 1)

/-- The body of `handleIncomingMessage`'s try block. Redis ops in program
order: get `chat:` (op 0), get `state:` (op 1), get `lang:` (op 2), then the
branch-specific writes starting at op 3. `.error s` is an uncaught throw with
the store mutated to `s` so far. -/
def handleIncomingMessageCore (env : Env) (store : Store) (body : String) :
    Except Store HandleResult :=
  if env.fail 0 then .error store
  else if env.fail 1 then .error store
  else if env.fail 2 then .error store
  else
    let history := store.chat.getD []
    let userState := store.dstate.getD .initial
    if history = [] ∧ userState = DState.initial then
      if env.fail 3 then .error store
      else .ok ⟨getLanguageSelectionMessage,
        { store with dstate := some .language_selection }, false⟩
    else if userState = DState.language_selection then
      match handleLanguageSelection body with
      | some language =>
          if env.fail 3 then .error store
          else
            let s1 := { store with lang := some language }
            if env.fail 4 then .error s1
            else .ok ⟨getMainMenuMessage language,
              { s1 with dstate := some .menu_shown }, false⟩
      | none => .ok ⟨getLanguageSelectionMessage, store, false⟩
    else if userState = DState.disaster_submenu then
      let language := store.lang.getD .english
      match parseDisasterSubMenu body with
      | some subOption =>
          match handleDisasterSubMenu env 3 store subOption language with
          | .error s => .error s
          | .ok (response, s1, n) =>
              .ok ⟨response, updateConversationHistory env n s1 body response, false⟩
      | none => .ok ⟨getDisasterSubMenu language, store, false⟩
    else
      match parseMenuSelection body with
      | some selectedOption =>
          let language := store.lang.getD .english
          match handleMenuSelection env 3 store selectedOption language with
          | .error s => .error s
          | .ok (response, s1, n) =>
              .ok ⟨response, updateConversationHistory env n s1 body response, false⟩
      | none =>
          if shouldShowMenu body then
            let language := store.lang.getD .english
            .ok ⟨getMainMenuMessage language, store, false⟩
          else
            let language := store.lang.getD .english
            let response := processWithKMCAI env body history language
            .ok ⟨response ++ "\n\n" ++ getMenuReminder language,
              updateConversationHistory env 3 store body response, true⟩

/-- `handleIncomingMessage` with its top-level catch: any uncaught throw
becomes the fixed apology, with the store as mutated up to the throw. -/
def handleIncomingMessage (env : Env) (store : Store) (body : String) :
    HandleResult :=
  match handleIncomingMessageCore env store body with
  | .ok r => r
  | .error s => ⟨whatsappErrorApology, s, false⟩

/-- `handleCommand`: `/help`, `/clear`, `/menu` (case-insensitive, trimmed,
exact match); anything else yields `none` without touching Redis. Returns
also the number of Redis ops performed. -/
def handleCommand (env : Env) (store : Store) (command : String) :
    Except Store (Option String × Store × Nat) :=
  let cmd := trimStr (lowerStr command)
  if cmd = "/help" then
    if env.fail 0 then .error store
    else .ok (some (getMainMenuMessage (store.lang.getD .english)), store, 1)
  else if cmd = "/clear" then
    if env.fail 0 then .error store
    else
      let s1 := { store with chat := none }
      if env.fail 1 then .error s1
      else
        let s2 := { s1 with lang := none }
        if env.fail 2 then .error s2
        else
          let s3 := { s2 with dstate := none }
          if env.fail 3 then .error s3
          else .ok (some clearConfirmation, { s3 with context := none }, 4)
  else if cmd = "/menu" then
    if env.fail 0 then .error store
    else .ok (some (getMainMenuMessage (store.lang.getD .english)), store, 1)
  else .ok (none, store, 0)

inductive PostResponse where
  | success
  | badRequest
  | serverError
deriving DecidableEq

structure PostResult where
  response : PostResponse
  store : Store
  sent : Option String
deriving DecidableEq

/-- The webhook `POST` handler: missing or empty `From`/`Body` → 400 before
any state logic; then `handleCommand`, falling back to
`handleIncomingMessage`; then the outbound send; any throw escaping to the
route's catch → 500. A command body never reaches `handleIncomingMessage`,
and a non-command body performs no Redis op inside `handleCommand`, so the
op numbering of `handleIncomingMessage` starts at 0 in both models. -/
def POST (env : Env) (store : Store) (fromField bodyField : Option String) :
    PostResult :=
  match fromField, bodyField with
  | some f, some body =>
      if f = "" ∨ body = "" then ⟨.badRequest, store, none⟩
      else
        match handleCommand env store body with
        | .error s => ⟨.serverError, s, none⟩
        | .ok (some commandResponse, s1, _) =>
            if env.sendFail then ⟨.serverError, s1, none⟩
            else ⟨.success, s1, some commandResponse⟩
        | .ok (none, s1, _) =>
            let r := handleIncomingMessage env s1 body
            if env.sendFail then ⟨.serverError, r.store, none⟩
            else ⟨.success, r.store, some r.reply⟩
  | _, _ => ⟨.badRequest, store, none⟩

/-- An environment in which no Redis operation fails. -/
def NoRedisFailure (env : Env) : Prop :=
  ∀ n, env.fail n = false

/-- The two entries a turn appends: the user message then the assistant
reply. -/
def newTurns (history : List ChatMessage) (u a : String) : List ChatMessage :=
  history ++ [⟨Role.user, u⟩, ⟨Role.assistant, a⟩]

/-- Environment with healthy Redis, a nonempty completion result and a
working outbound send. -/
def envOk : Env := ⟨fun _ => false, some "OK", false⟩

/-- Environment in which only the completion service throws. -/
def envAIDown : Env := ⟨fun _ => false, none, false⟩

/-- Environment in which exactly the fifth Redis call of the request (the
`state:` write of the language-selection branch) throws. -/
def envLangWriteFails : Env := ⟨fun n => n == 4, some "OK", false⟩

/-- Environment in which only the outbound Twilio send throws. -/
def envSendDown : Env := ⟨fun _ => false, some "OK", true⟩

/-- Environment in which every Redis call and the completion throw, but the
outbound send works. -/
def envAllRedisDown : Env := ⟨fun _ => true, none, false⟩

def storeEmpty : Store := ⟨none, none, none, none⟩

def storeLangSel : Store := ⟨some [], none, some .language_selection, none⟩

/-- `storeLangSel` after the `lang:` write of a turn that chose English. -/
def storeLangSelAfter : Store :=
  ⟨some [], some .english, some .language_selection, none⟩

def storeMenuEn : Store := ⟨some [], some .english, some .menu_shown, none⟩

def storeDisMr : Store :=
  ⟨some [⟨.user, "x"⟩], some .marathi, some .disaster_submenu,
    some "service_disasterManagement"⟩

/-- A session whose `state:` key expired (reads back as `initial`) while a
nonempty history survives. -/
def storeInitHist : Store := ⟨some [⟨.user, "x"⟩], some .english, none, none⟩

/-- A session holding 23 stored history entries. -/
def storeChat23 : Store :=
  ⟨some (List.replicate 23 ⟨Role.user, "m"⟩), some .english, some .menu_shown, none⟩

def menuOption2 : MenuOption :=
  ⟨"2", "Property Tax Payment", "मिळकत कर भरणा", "संपत्ति कर भुगतान", .propertyTax⟩

lemma updateConversationHistory_ok (env : Env) (n : Nat) (store : Store)
    (u a : String) (hf : NoRedisFailure env) :
    updateConversationHistory env n store u a =
      { store with chat := some ((newTurns (store.chat.getD []) u a).drop ((newTurns (store.chat.getD []) u a).length - 20)) } := by
  unfold updateConversationHistory newTurns
  simp [hf n, hf (n + 1)]

lemma updateConversationHistory_dstate (env : Env) (n : Nat) (store : Store)
    (u a : String) :
    (updateConversationHistory env n store u a).dstate = store.dstate := by
  unfold updateConversationHistory
  split
  · rfl
  · split <;> rfl

lemma updateConversationHistory_lang (env : Env) (n : Nat) (store : Store)
    (u a : String) :
    (updateConversationHistory env n store u a).lang = store.lang := by
  unfold updateConversationHistory
  split
  · rfl
  · split <;> rfl

lemma updateConversationHistory_context (env : Env) (n : Nat) (store : Store)
    (u a : String) :
    (updateConversationHistory env n store u a).context = store.context := by
  unfold updateConversationHistory
  split
  · rfl
  · split <;> rfl

lemma updateConversationHistory_chat (env : Env) (n : Nat) (store : Store)
    (u a : String) :
    (updateConversationHistory env n store u a).chat =
      if env.fail n = true then store.chat
      else if env.fail (n + 1) = true then store.chat
      else some ((newTurns (store.chat.getD []) u a).drop
        ((newTurns (store.chat.getD []) u a).length - 20)) := by
  unfold updateConversationHistory newTurns
  by_cases f1 : env.fail n <;> by_cases f2 : env.fail (n + 1) <;> simp [f1, f2]

lemma menu_path_reply (env : Env) (store : Store) (body : String) (opt : MenuOption)
    (hf : NoRedisFailure env)
    (h1 : ¬(store.chat.getD [] = [] ∧ store.dstate.getD .initial = DState.initial))
    (h2 : store.dstate.getD .initial ≠ DState.language_selection)
    (h3 : store.dstate.getD .initial ≠ DState.disaster_submenu)
    (hparse : parseMenuSelection body = some opt) :
    (handleIncomingMessage env store body).reply =
      menuSelectionResponse opt.category (store.lang.getD .english) ∧
    (handleIncomingMessage env store body).usedAI = false := by
  unfold handleIncomingMessage handleIncomingMessageCore handleMenuSelection
  obtain ⟨num, en, mr, hi, cat⟩ := opt
  cases cat <;> simp [hf 0, hf 1, hf 2, hf 3, hf 4, h1, h2, h3, hparse]

lemma menu_path_plain (env : Env) (store : Store) (body : String) (opt : MenuOption)
    (hf : NoRedisFailure env)
    (h1 : ¬(store.chat.getD [] = [] ∧ store.dstate.getD .initial = DState.initial))
    (h2 : store.dstate.getD .initial ≠ DState.language_selection)
    (h3 : store.dstate.getD .initial ≠ DState.disaster_submenu)
    (hparse : parseMenuSelection body = some opt)
    (hc1 : opt.category ≠ Category.disasterManagement)
    (hc2 : opt.category ≠ Category.freeText) :
    handleIncomingMessage env store body =
      ⟨menuSelectionResponse opt.category (store.lang.getD .english),
        updateConversationHistory env 4 { store with context := some ("service_" ++ opt.category.tag) } body (menuSelectionResponse opt.category (store.lang.getD .english)), false⟩ := by
  unfold handleIncomingMessage handleIncomingMessageCore handleMenuSelection
  obtain ⟨num, en, mr, hi, cat⟩ := opt
  cases cat <;> simp [hf 0, hf 1, hf 2, hf 3, h1, h2, h3, hparse] <;> simp_all

lemma C6_helper (env : Env) (store : Store) (body : String) (opt : MenuOption)
    (hf : NoRedisFailure env)
    (hstate : store.dstate = some DState.menu_shown)
    (hparse : parseMenuSelection body = some opt)
    (hc1 : opt.category ≠ Category.disasterManagement)
    (hc2 : opt.category ≠ Category.freeText) :
    (handleIncomingMessage env store body).store.dstate = store.dstate ∧
    (handleIncomingMessage env (handleIncomingMessage env store body).store body).reply =
      (handleIncomingMessage env store body).reply ∧
    (handleIncomingMessage env (handleIncomingMessage env store body).store body).store.dstate =
      store.dstate := by
  have e1 := menu_path_plain env store body opt hf
    (by simp [hstate]) (by simp [hstate]) (by simp [hstate]) hparse hc1 hc2
  have e2 := menu_path_plain env (handleIncomingMessage env store body).store body opt hf
    (by rw [e1]; simp [updateConversationHistory_dstate, hstate])
    (by rw [e1]; simp [updateConversationHistory_dstate, hstate])
    (by rw [e1]; simp [updateConversationHistory_dstate, hstate])
    hparse hc1 hc2
  refine ⟨?_, ?_, ?_⟩
  · rw [e1]
    simp [updateConversationHistory_dstate]
  · rw [e2, e1]
    simp [updateConversationHistory_lang]
  · rw [e2, e1]
    simp [updateConversationHistory_dstate, hstate]

lemma handleMenuSelection_error_chat (env : Env) (n : Nat) (store : Store)
    (opt : MenuOption) (language : Lang) (s : Store)
    (h : handleMenuSelection env n store opt language = .error s) :
    s.chat = store.chat := by
  obtain ⟨num, en, mr, hi, cat⟩ := opt
  unfold handleMenuSelection at h
  by_cases f1 : env.fail n
  · simp [f1] at h
    simp [← h]
  · cases cat <;> by_cases f2 : env.fail (n + 1) <;>
      simp [f1, f2] at h <;> simp [← h]

lemma handleDisasterSubMenu_error_chat (env : Env) (n : Nat) (store : Store)
    (option : DisasterSub) (language : Lang) (s : Store)
    (h : handleDisasterSubMenu env n store option language = .error s) :
    s.chat = store.chat := by
  unfold handleDisasterSubMenu at h
  cases option <;> by_cases f : env.fail n <;>
    simp [f] at h <;> simp [← h]

lemma core_error_chat (env : Env) (store : Store) (body : String) (s : Store)
    (h : handleIncomingMessageCore env store body = .error s) :
    s.chat = store.chat := by
  unfold handleIncomingMessageCore at h
  by_cases f0 : env.fail 0
  · simp [f0] at h
    simp [← h]
  by_cases f1 : env.fail 1
  · simp [f0, f1] at h
    simp [← h]
  by_cases f2 : env.fail 2
  · simp [f0, f1, f2] at h
    simp [← h]
  by_cases hinit : store.chat.getD [] = [] ∧ store.dstate.getD DState.initial = DState.initial
  · by_cases f3 : env.fail 3
    · simp [f0, f1, f2, hinit, f3] at h
      simp [← h]
    · simp [f0, f1, f2, hinit, f3] at h
  by_cases hls : store.dstate.getD DState.initial = DState.language_selection
  · rcases hl : handleLanguageSelection body with _ | lang
    · simp [f0, f1, f2, hinit, hls, hl] at h
    · by_cases f3 : env.fail 3
      · simp [f0, f1, f2, hinit, hls, hl, f3] at h
        simp [← h]
      · by_cases f4 : env.fail 4
        · simp [f0, f1, f2, hinit, hls, hl, f3, f4] at h
          simp [← h]
        · simp [f0, f1, f2, hinit, hls, hl, f3, f4] at h
  by_cases hds : store.dstate.getD DState.initial = DState.disaster_submenu
  · rcases hsub : parseDisasterSubMenu body with _ | sub
    · simp [f0, f1, f2, hinit, hls, hds, hsub] at h
    · rcases hd : handleDisasterSubMenu env 3 store sub (store.lang.getD .english) with serr | trip
      · simp [f0, f1, f2, hinit, hls, hds, hsub, hd] at h
        exact h ▸ handleDisasterSubMenu_error_chat _ _ _ _ _ _ hd
      · simp [f0, f1, f2, hinit, hls, hds, hsub, hd] at h
  rcases hm : parseMenuSelection body with _ | optSel
  · by_cases hsm : shouldShowMenu body <;>
      simp [f0, f1, f2, hinit, hls, hds, hm, hsm] at h
  · rcases hmenu : handleMenuSelection env 3 store optSel (store.lang.getD .english) with serr | trip
    · simp [f0, f1, f2, hinit, hls, hds, hm, hmenu] at h
      exact h ▸ handleMenuSelection_error_chat _ _ _ _ _ _ hmenu
    · simp [f0, f1, f2, hinit, hls, hds, hm, hmenu] at h

/-- Claim C1 (corrected): when an uncaught exception aborts
`handleIncomingMessage`, the top-level catch returns the fixed apology and
the conversation-history key (`chat:`) still holds exactly its value from
before the turn; but the other keys are not rolled back, so the claim's
"all four keys unchanged" fails (see the counterexample). -/
theorem C1_apology_history_preserved (env : Env) (store : Store)
    (body : String) (s : Store)
    (herr : handleIncomingMessageCore env store body = .error s) :
    handleIncomingMessage env store body = ⟨whatsappErrorApology, s, false⟩ ∧
    s.chat = store.chat := by
  constructor
  · unfold handleIncomingMessage
    rw [herr]
  · exact core_error_chat _ _ _ _ herr

/-- Witness for C1: a concrete failing turn on which the theorem applies. -/
theorem C1_apology_history_preserved_witness :
    handleIncomingMessageCore envLangWriteFails storeLangSel "1" = .error storeLangSelAfter ∧
    (handleIncomingMessage envLangWriteFails storeLangSel "1" =
        ⟨whatsappErrorApology, storeLangSelAfter, false⟩ ∧
      storeLangSelAfter.chat = storeLangSel.chat) :=
  ⟨by rfl, C1_apology_history_preserved envLangWriteFails storeLangSel "1"
    storeLangSelAfter (by rfl)⟩

/-- Counterexample for C1 as stated: in `language_selection` state with
message "1", when the `state:` write (the second write of the turn) throws,
the handler returns the apology but the `lang:` key now holds english — a
partial write survives the failed turn, so not all four keys are unchanged. -/
theorem C1_counterexample_partial_lang_write :
    (handleIncomingMessage envLangWriteFails storeLangSel "1").reply = whatsappErrorApology ∧
    (handleIncomingMessage envLangWriteFails storeLangSel "1").store.lang = some Lang.english ∧
    storeLangSel.lang = none := by
  refine ⟨rfl, rfl, rfl⟩

/-- Claim C2 (corrected): a failure inside `handleIncomingMessage` is caught
there, so the webhook still acknowledges with success — even when every
Redis call and the completion throw; but a failure of the outbound send (or
of command handling) escapes to the route's catch, which returns a 500
error, not a success acknowledgment (see the counterexample). -/
theorem C2_success_ack_despite_handler_failures (env : Env) (store : Store)
    (f body : String)
    (hfrom : f ≠ "") (hbody : body ≠ "")
    (h1 : trimStr (lowerStr body) ≠ "/help")
    (h2 : trimStr (lowerStr body) ≠ "/clear")
    (h3 : trimStr (lowerStr body) ≠ "/menu")
    (hsend : env.sendFail = false) :
    (POST env store (some f) (some body)).response = PostResponse.success := by
  unfold POST handleCommand
  simp [hfrom, hbody, h1, h2, h3, hsend]

/-- Witness for C2: with every Redis call and the completion failing but the
send working, the webhook still returns success. -/
theorem C2_success_ack_despite_handler_failures_witness :
    (("whatsapp:+911234567890" : String) ≠ "" ∧ ("hi" : String) ≠ "" ∧
      trimStr (lowerStr "hi") ≠ "/help" ∧ trimStr (lowerStr "hi") ≠ "/clear" ∧
      trimStr (lowerStr "hi") ≠ "/menu" ∧ envAllRedisDown.sendFail = false) ∧
    (POST envAllRedisDown storeMenuEn (some "whatsapp:+911234567890") (some "hi")).response =
      PostResponse.success :=
  ⟨⟨by decide, by decide, by decide, by decide, by decide, rfl⟩,
    C2_success_ack_despite_handler_failures envAllRedisDown storeMenuEn
      "whatsapp:+911234567890" "hi" (by decide) (by decide) (by decide)
      (by decide) (by decide) rfl⟩

set_option maxRecDepth 100000 in
/-- Counterexample for C2 as stated: when the outbound message send throws,
the webhook returns a 500 error response, not a success acknowledgment. -/
theorem C2_counterexample_send_failure_returns_500 :
    (POST envSendDown storeMenuEn (some "whatsapp:+911234567890") (some "hello")).response =
      PostResponse.serverError ∧
    (POST envSendDown storeMenuEn (some "whatsapp:+911234567890") (some "hello")).response ≠
      PostResponse.success := by
  decide

/-- Claim C3 (corrected): an input in `menu_shown` matching no menu option
and no trigger keyword is routed to the AI fallback; when the completion
call fails, the user receives the fixed apology string WITH the standard
menu reminder footer appended (the code appends the footer unconditionally),
not the bare apology the claim asserts (see the counterexample). -/
theorem C3_fallback_failure_apology_with_reminder (env : Env) (store : Store)
    (body : String)
    (hf : NoRedisFailure env)
    (hstate : store.dstate = some DState.menu_shown)
    (hmenu : parseMenuSelection body = none)
    (htrig : shouldShowMenu body = false)
    (hai : env.ai = none) :
    (handleIncomingMessage env store body).usedAI = true ∧
    (handleIncomingMessage env store body).reply =
      kmcErrorApology ++ "\n\n" ++ getMenuReminder (store.lang.getD .english) := by
  unfold handleIncomingMessage handleIncomingMessageCore processWithKMCAI
  simp [hf 0, hf 1, hf 2, hstate, hmenu, htrig, hai]

set_option maxRecDepth 100000 in
/-- Witness for C3: a concrete unmatched message with the completion down. -/
theorem C3_fallback_failure_apology_with_reminder_witness :
    (NoRedisFailure envAIDown ∧ storeMenuEn.dstate = some DState.menu_shown ∧
      parseMenuSelection "weather please" = none ∧
      shouldShowMenu "weather please" = false ∧ envAIDown.ai = none) ∧
    ((handleIncomingMessage envAIDown storeMenuEn "weather please").usedAI = true ∧
      (handleIncomingMessage envAIDown storeMenuEn "weather please").reply =
        kmcErrorApology ++ "\n\n" ++ getMenuReminder (storeMenuEn.lang.getD .english)) :=
  ⟨⟨fun _ => rfl, rfl, by decide, by decide, rfl⟩,
    C3_fallback_failure_apology_with_reminder envAIDown storeMenuEn
      "weather please" (fun _ => rfl) rfl (by decide) (by decide) rfl⟩

set_option maxRecDepth 100000 in
/-- Counterexample for C3 as stated: on fallback failure the value returned
to the user is NOT exactly the fixed apology string — the menu reminder
footer is appended to it. -/
theorem C3_counterexample_reminder_appended :
    (handleIncomingMessage envAIDown storeMenuEn "Hello, what's the weather").usedAI = true ∧
    (handleIncomingMessage envAIDown storeMenuEn "Hello, what's the weather").reply =
      kmcErrorApology ++ "\n\n" ++ getMenuReminder .english ∧
    (handleIncomingMessage envAIDown storeMenuEn "Hello, what's the weather").reply ≠
      kmcErrorApology := by
  decide

/-- Claim C4 (confirmed): for a session whose stored dialogue state is
`initial` (or absent) and whose stored history is empty, any message body
yields the language-selection prompt and sets the stored state to
`language_selection`. -/
theorem C4_initial_first_message_language_prompt (env : Env) (store : Store)
    (body : String)
    (hf : NoRedisFailure env)
    (hstate : store.dstate.getD .initial = .initial)
    (hhist : store.chat.getD [] = []) :
    handleIncomingMessage env store body =
      ⟨getLanguageSelectionMessage, { store with dstate := some .language_selection }, false⟩ := by
  unfold handleIncomingMessage handleIncomingMessageCore
  simp [hf 0, hf 1, hf 2, hf 3, hstate, hhist]

/-- Witness for C4: a brand-new session and an arbitrary first message. -/
theorem C4_initial_first_message_language_prompt_witness :
    (NoRedisFailure envOk ∧ storeEmpty.dstate.getD .initial = DState.initial ∧
      storeEmpty.chat.getD [] = []) ∧
    handleIncomingMessage envOk storeEmpty "What is the weather?" =
      ⟨getLanguageSelectionMessage, { storeEmpty with dstate := some .language_selection }, false⟩ :=
  ⟨⟨fun _ => rfl, rfl, rfl⟩,
    C4_initial_first_message_language_prompt envOk storeEmpty
      "What is the weather?" (fun _ => rfl) rfl rfl⟩

/-- Claim C5 (confirmed): the history persisted by
`updateConversationHistory` is the prior stored sequence with exactly the
user turn then the assistant turn appended, capped to the most recent 20
entries, the oldest entries beyond 20 discarded. -/
theorem C5_history_two_appended_capped_20 (env : Env) (store : Store)
    (u a : String) (hf : NoRedisFailure env) :
    (∃ dropped,
        dropped ++ (updateConversationHistory env 0 store u a).chat.getD [] =
          newTurns (store.chat.getD []) u a ∧
        dropped.length = (newTurns (store.chat.getD []) u a).length - 20) ∧
    ((updateConversationHistory env 0 store u a).chat.getD []).length =
      min (newTurns (store.chat.getD []) u a).length 20 ∧
    ((newTurns (store.chat.getD []) u a).length ≤ 20 →
      (updateConversationHistory env 0 store u a).chat.getD [] =
        newTurns (store.chat.getD []) u a) := by
  rw [updateConversationHistory_ok env 0 store u a hf]
  refine ⟨⟨(newTurns (store.chat.getD []) u a).take ((newTurns (store.chat.getD []) u a).length - 20), ?_, ?_⟩, ?_, ?_⟩
  · simp [List.take_append_drop]
  · simp [List.length_take]
  · simp [List.length_drop]
    omega
  · intro h
    have h0 : (newTurns (store.chat.getD []) u a).length - 20 = 0 := by omega
    simp [h0]

/-- Witness for C5: a 23-entry prior history, so the appended sequence has
length 25 and the oldest 5 entries are discarded. -/
theorem C5_history_two_appended_capped_20_witness :
    NoRedisFailure envOk ∧
    ((∃ dropped,
        dropped ++ (updateConversationHistory envOk 0 storeChat23 "u" "a").chat.getD [] =
          newTurns (storeChat23.chat.getD []) "u" "a" ∧
        dropped.length = (newTurns (storeChat23.chat.getD []) "u" "a").length - 20) ∧
    ((updateConversationHistory envOk 0 storeChat23 "u" "a").chat.getD []).length =
      min (newTurns (storeChat23.chat.getD []) "u" "a").length 20 ∧
    ((newTurns (storeChat23.chat.getD []) "u" "a").length ≤ 20 →
      (updateConversationHistory envOk 0 storeChat23 "u" "a").chat.getD [] =
        newTurns (storeChat23.chat.getD []) "u" "a")) :=
  ⟨fun _ => rfl, C5_history_two_appended_capped_20 envOk storeChat23 "u" "a" (fun _ => rfl)⟩

/-- Claim C6 (corrected): sending the same valid main-menu digit twice from
`menu_shown` leaves the stored dialogue state unchanged and returns the same
canned response both times — for the digits "2".."8"; it fails for digit
"9" (the free-text escape option), which is not the disaster option but
moves the state to `free_text_mode` (see the counterexample). -/
theorem C6_menu_digit_idempotent (env : Env) (store : Store) (d : String)
    (hf : NoRedisFailure env)
    (hstate : store.dstate = some DState.menu_shown)
    (hd : d ∈ (["2", "3", "4", "5", "6", "7", "8"] : List String)) :
    (handleIncomingMessage env store d).store.dstate = store.dstate ∧
    (handleIncomingMessage env (handleIncomingMessage env store d).store d).reply =
      (handleIncomingMessage env store d).reply ∧
    (handleIncomingMessage env (handleIncomingMessage env store d).store d).store.dstate =
      store.dstate := by
  fin_cases hd
  · exact C6_helper env store "2" ⟨"2", "Property Tax Payment", "मिळकत कर भरणा", "संपत्ति कर भुगतान", .propertyTax⟩ hf hstate (by decide) (by decide) (by decide)
  · exact C6_helper env store "3" ⟨"3", "Water Bill Payment", "पाणी बिल भरणा", "पानी का बिल भुगतान", .waterSupply⟩ hf hstate (by decide) (by decide) (by decide)
  · exact C6_helper env store "4" ⟨"4", "Birth Certificate", "जन्म प्रमाणपत्र", "जन्म प्रमाण पत्र", .birthCertificate⟩ hf hstate (by decide) (by decide) (by decide)
  · exact C6_helper env store "5" ⟨"5", "Death Certificate", "मृत्यू प्रमाणपत्र", "मृत्यु प्रमाण पत्र", .deathCertificate⟩ hf hstate (by decide) (by decide) (by decide)
  · exact C6_helper env store "6" ⟨"6", "Business License", "व्यवसाय परवाना", "व्यापार लाइसेंस", .businessLicense⟩ hf hstate (by decide) (by decide) (by decide)
  · exact C6_helper env store "7" ⟨"7", "Register Complaint", "तक्रार नोंदवा", "शिकायत दर्ज करें", .complaint⟩ hf hstate (by decide) (by decide) (by decide)
  · exact C6_helper env store "8" ⟨"8", "Contact Information", "संपर्क माहिती", "संपर्क जानकारी", .contact⟩ hf hstate (by decide) (by decide) (by decide)

/-- Witness for C6: digit "2" sent twice from an English `menu_shown`
session. -/
theorem C6_menu_digit_idempotent_witness :
    (NoRedisFailure envOk ∧ storeMenuEn.dstate = some DState.menu_shown ∧
      "2" ∈ (["2", "3", "4", "5", "6", "7", "8"] : List String)) ∧
    ((handleIncomingMessage envOk storeMenuEn "2").store.dstate = storeMenuEn.dstate ∧
    (handleIncomingMessage envOk (handleIncomingMessage envOk storeMenuEn "2").store "2").reply =
      (handleIncomingMessage envOk storeMenuEn "2").reply ∧
    (handleIncomingMessage envOk (handleIncomingMessage envOk storeMenuEn "2").store "2").store.dstate =
      storeMenuEn.dstate) :=
  ⟨⟨fun _ => rfl, rfl, by decide⟩,
    C6_menu_digit_idempotent envOk storeMenuEn "2" (fun _ => rfl) rfl (by decide)⟩

set_option maxRecDepth 100000 in
/-- Counterexample for C6 as stated: "9" is a valid main-menu digit other
than the disaster option, but sending it in `menu_shown` changes the stored
dialogue state to `free_text_mode`. -/
theorem C6_counterexample_digit9_changes_state :
    parseMenuSelection "9" =
      some ⟨"9", "Other / Type your question", "इतर / आपला प्रश्न टाइप करा", "अन्य / अपना प्रश्न टाइप करें", .freeText⟩ ∧
    storeMenuEn.dstate = some DState.menu_shown ∧
    (handleIncomingMessage envOk storeMenuEn "9").store.dstate = some DState.free_text_mode := by
  decide

/-- Claim C7 (confirmed): from `disaster_submenu`, any input classified as
the back sub-option sets the stored state to `menu_shown` and returns a
message identical to the `/menu` command's output for the same stored
language. -/
theorem C7_disaster_back_restores_menu (env : Env) (store : Store)
    (body : String)
    (hf : NoRedisFailure env)
    (hstate : store.dstate = some DState.disaster_submenu)
    (hback : parseDisasterSubMenu body = some DisasterSub.back) :
    (handleIncomingMessage env store body).store.dstate = some DState.menu_shown ∧
    handleCommand env store "/menu" =
      .ok (some ((handleIncomingMessage env store body).reply), store, 1) := by
  have hcmd : trimStr (lowerStr "/menu") = "/menu" := by decide
  have hne1 : ("/menu" : String) ≠ "/help" := by decide
  have hne2 : ("/menu" : String) ≠ "/clear" := by decide
  unfold handleIncomingMessage handleIncomingMessageCore handleDisasterSubMenu handleCommand
  rw [hcmd]
  simp [hf 0, hf 1, hf 2, hf 3, hstate, hback, hne1, hne2,
    updateConversationHistory_dstate]

/-- Witness for C7: input "4" from a Marathi `disaster_submenu` session. -/
theorem C7_disaster_back_restores_menu_witness :
    (NoRedisFailure envOk ∧ storeDisMr.dstate = some DState.disaster_submenu ∧
      parseDisasterSubMenu "4" = some DisasterSub.back) ∧
    ((handleIncomingMessage envOk storeDisMr "4").store.dstate = some DState.menu_shown ∧
    handleCommand envOk storeDisMr "/menu" =
      .ok (some ((handleIncomingMessage envOk storeDisMr "4").reply), storeDisMr, 1)) :=
  ⟨⟨fun _ => rfl, rfl, by decide⟩,
    C7_disaster_back_restores_menu envOk storeDisMr "4" (fun _ => rfl) rfl (by decide)⟩

/-- Claim C8 (corrected): when at most one of the three languages' matching
rules applies to an input, the classification is independent of the order in
which the rules are checked; but inputs exist that satisfy several
languages' rules at once (the individual keywords are disjoint, the rule
sets are not), so the universal "at most one rule applies" fails (see the
counterexample). -/
theorem C8_order_independent_when_at_most_one_rule (message : String)
    (h : langRuleCount message ≤ 1) :
    handleLanguageSelection message = classifyLanguageChoiceRev message := by
  unfold langRuleCount at h
  unfold handleLanguageSelection classifyLanguageChoiceRev
  by_cases he : englishChoiceRule (lowerStr (trimStr message)) <;>
    by_cases hm : marathiChoiceRule (lowerStr (trimStr message)) <;>
      by_cases hh : hindiChoiceRule (lowerStr (trimStr message)) <;>
        simp_all

/-- Witness for C8: the input "2" satisfies exactly the Marathi rule and
classifies as Marathi under both rule orders. -/
theorem C8_order_independent_when_at_most_one_rule_witness :
    langRuleCount "2" ≤ 1 ∧
    handleLanguageSelection "2" = classifyLanguageChoiceRev "2" :=
  ⟨by decide, C8_order_independent_when_at_most_one_rule "2" (by decide)⟩

/-- Counterexample for C8 as stated: the input "english hindi" satisfies
both the English rule and the Hindi rule, so more than one of the three
matching rules applies, and the two check orders disagree on it. -/
theorem C8_counterexample_english_hindi :
    englishChoiceRule (lowerStr (trimStr "english hindi")) = true ∧
    hindiChoiceRule (lowerStr (trimStr "english hindi")) = true ∧
    langRuleCount "english hindi" = 2 ∧
    handleLanguageSelection "english hindi" = some Lang.english ∧
    classifyLanguageChoiceRev "english hindi" = some Lang.hindi := by
  decide

/-- Claim C9 (confirmed): the stored `context:` value is write-only — two
runs of `handleIncomingMessage` that differ only in the stored context value
return the same reply, make identical writes to the chat, lang and state
keys, and agree on whether the AI fallback ran. -/
theorem C9_serviceContext_write_only (env : Env) (body : String)
    (ch : Option (List ChatMessage)) (l : Option Lang) (st : Option DState)
    (c₁ c₂ : Option String) :
    (handleIncomingMessage env ⟨ch, l, st, c₁⟩ body).reply =
      (handleIncomingMessage env ⟨ch, l, st, c₂⟩ body).reply ∧
    (handleIncomingMessage env ⟨ch, l, st, c₁⟩ body).store.chat =
      (handleIncomingMessage env ⟨ch, l, st, c₂⟩ body).store.chat ∧
    (handleIncomingMessage env ⟨ch, l, st, c₁⟩ body).store.lang =
      (handleIncomingMessage env ⟨ch, l, st, c₂⟩ body).store.lang ∧
    (handleIncomingMessage env ⟨ch, l, st, c₁⟩ body).store.dstate =
      (handleIncomingMessage env ⟨ch, l, st, c₂⟩ body).store.dstate ∧
    (handleIncomingMessage env ⟨ch, l, st, c₁⟩ body).usedAI =
      (handleIncomingMessage env ⟨ch, l, st, c₂⟩ body).usedAI := by
  unfold handleIncomingMessage handleIncomingMessageCore
  by_cases f0 : env.fail 0
  · simp [f0]
  by_cases f1 : env.fail 1
  · simp [f0, f1]
  by_cases f2 : env.fail 2
  · simp [f0, f1, f2]
  by_cases hinit : ch.getD [] = [] ∧ st.getD DState.initial = DState.initial
  · by_cases f3 : env.fail 3 <;> simp [f0, f1, f2, hinit, f3]
  by_cases hls : st.getD DState.initial = DState.language_selection
  · rcases hl : handleLanguageSelection body with _ | lang
    · simp [f0, f1, f2, hinit, hls, hl]
    · by_cases f3 : env.fail 3
      · simp [f0, f1, f2, hinit, hls, hl, f3]
      · by_cases f4 : env.fail 4 <;> simp [f0, f1, f2, hinit, hls, hl, f3, f4]
  by_cases hds : st.getD DState.initial = DState.disaster_submenu
  · rcases hsub : parseDisasterSubMenu body with _ | sub
    · simp [f0, f1, f2, hinit, hls, hds, hsub]
    · cases sub <;> unfold handleDisasterSubMenu <;>
        by_cases f3 : env.fail 3 <;>
        simp [f0, f1, f2, hinit, hls, hds, hsub, f3,
          updateConversationHistory_chat, updateConversationHistory_lang,
          updateConversationHistory_dstate]
  rcases hm : parseMenuSelection body with _ | optSel
  · by_cases hsm : shouldShowMenu body <;>
      simp [f0, f1, f2, hinit, hls, hds, hm, hsm,
        updateConversationHistory_chat, updateConversationHistory_lang,
        updateConversationHistory_dstate]
  · obtain ⟨num, en, mr, hi, cat⟩ := optSel
    unfold handleMenuSelection
    by_cases f3 : env.fail 3
    · simp [f0, f1, f2, hinit, hls, hds, hm, f3]
    · cases cat <;> by_cases f4 : env.fail 4 <;>
        simp [f0, f1, f2, hinit, hls, hds, hm, f3, f4,
          updateConversationHistory_chat, updateConversationHistory_lang,
          updateConversationHistory_dstate]

/-- Claim C10 (confirmed): in every stored dialogue state other than
`language_selection` and `disaster_submenu` — including `free_text_mode`
and an expired state key (read as `initial`) alongside a surviving nonempty
history — an input matching a menu option by number or any-language label
is handled as a menu selection: the canned response is returned and the AI
fallback never runs. -/
theorem C10_menu_match_any_state_no_ai (env : Env) (store : Store)
    (body : String) (opt : MenuOption)
    (hf : NoRedisFailure env)
    (h1 : ¬(store.chat.getD [] = [] ∧ store.dstate.getD .initial = DState.initial))
    (h2 : store.dstate.getD .initial ≠ DState.language_selection)
    (h3 : store.dstate.getD .initial ≠ DState.disaster_submenu)
    (hparse : parseMenuSelection body = some opt) :
    (handleIncomingMessage env store body).usedAI = false ∧
    (handleIncomingMessage env store body).reply =
      menuSelectionResponse opt.category (store.lang.getD .english) := by
  have h := menu_path_reply env store body opt hf h1 h2 h3 hparse
  exact ⟨h.2, h.1⟩

/-- Witness for C10: a session whose state key expired while a nonempty
history survives, receiving the menu digit "2". -/
theorem C10_menu_match_any_state_no_ai_witness :
    (NoRedisFailure envOk ∧
      ¬(storeInitHist.chat.getD [] = [] ∧ storeInitHist.dstate.getD .initial = DState.initial) ∧
      storeInitHist.dstate.getD .initial ≠ DState.language_selection ∧
      storeInitHist.dstate.getD .initial ≠ DState.disaster_submenu ∧
      parseMenuSelection "2" = some menuOption2) ∧
    ((handleIncomingMessage envOk storeInitHist "2").usedAI = false ∧
      (handleIncomingMessage envOk storeInitHist "2").reply =
        menuSelectionResponse menuOption2.category (storeInitHist.lang.getD .english)) :=
  ⟨⟨fun _ => rfl, by decide, by decide, by decide, by decide⟩,
    C10_menu_match_any_state_no_ai envOk storeInitHist "2" menuOption2
      (fun _ => rfl) (by decide) (by decide) (by decide) (by decide)⟩
